import Mathlib

/-!
Shallow embedding of `src/app.py`, a Flask library-loan tracker.

The persistent store (SQLite via SQLAlchemy) is modelled as a `Store` holding
the `users` and `books` tables as lists.  Each Flask route handler becomes a
Lean function from the request data (path/form arguments), the session (the
flask-login cookie, holding the logged-in user id, if any), the pending flash
messages, and the store, to a `ReqResult` (new store, new flash list, new
session, HTTP response).  The `register` handler can instead fault with a
database `IntegrityError` (the `username` column is declared `unique=True`
and the handler commits without catching the error), so it returns `Except`.

Framework behaviour modelled:
  * `@login_required` (flask-login): when the session holds no id of an
    existing user, the handler body is not executed; `unauthorized()` flashes
    the default login message (a `login_view` is configured on line 19) and
    redirects the caller to the login view, leaving the store untouched.
  * SQLAlchemy `Model.query.get` is `List.find?` on the primary key;
    committing an insert that violates the UNIQUE constraint on
    `User.username` raises `IntegrityError`.  `db.session.delete(user)`
    first de-associates the user's `borrowed_books` backref collection
    (line 35 declares the relationship with the default cascade and without
    `passive_deletes`), emitting `UPDATE book SET borrowed_by = NULL` for
    every book the user holds, and then deletes the user row; the books'
    `is_borrowed` flags are not touched.
  * SQLite assigns a fresh integer primary key as max existing id + 1.
  * `flash(msg)` appends to the pending message list;
    `session.pop(_flashes)` clears it.
  * `werkzeug.security.generate_password_hash` is modelled as an injective
    tagging function; `check_password_hash` compares against it.
-/

namespace LibApp

/-- Model of the `User` table of `src/app.py` (lines 22-26). -/
structure User where
  id : Nat
  username : String
  password_hash : String
  is_admin : Bool
deriving Repr, DecidableEq

/-- Model of the `Book` table of `src/app.py` (lines 28-35). -/
structure Book where
  id : Nat
  title : String
  author : String
  publish_date : Option String
  is_borrowed : Bool
  borrowed_by : Option Nat
deriving Repr, DecidableEq

/-- The persistent store: the two tables of `library.db`. -/
structure Store where
  users : List User
  books : List Book
deriving Repr, DecidableEq

/-- The empty database the application starts from. -/
def initStore : Store := ⟨[], []⟩

/-- HTTP response of a handler: a rendered template or a redirect. -/
inductive Response where
  | render (template : String)
  | redirectTo (endpoint : String)
deriving Repr, DecidableEq

/-- HTTP request method, for routes accepting both GET and POST. -/
inductive Method where
  | get
  | post
deriving Repr, DecidableEq

/-- Result of handling one request: new store, pending flash messages,
session (logged-in user id cookie), and the response. -/
structure ReqResult where
  store : Store
  flashes : List String
  sess : Option Nat
  response : Response
deriving Repr, DecidableEq

/-- Database faults that can escape a handler (raw 500, not recovered). -/
inductive DBError where
  | integrityError
deriving Repr, DecidableEq

/-- Model of `werkzeug.security.generate_password_hash`: an injective one-way
tagging function (its cryptographic content is irrelevant to the claims). -/
def generate_password_hash (p : String) : String := "pbkdf2-sha256$" ++ p

/-- Model of `werkzeug.security.check_password_hash` (line 89). -/
def check_password_hash (h p : String) : Bool := h == generate_password_hash p

/-- SQLite primary-key assignment for a new user row: max existing id + 1. -/
def nextUserId (s : Store) : Nat := (s.users.map User.id).foldr max 0 + 1

/-- SQLite primary-key assignment for a new book row: max existing id + 1. -/
def nextBookId (s : Store) : Nat := (s.books.map Book.id).foldr max 0 + 1

/-- Model of the flask-login `user_loader` (lines 38-43) applied to the
session cookie: resolves the current user, `none` when anonymous or when the
stored id matches no user row. -/
def load_user (s : Store) (sess : Option Nat) : Option User :=
  match sess with
  | none => none
  | some uid => s.users.find? (fun u => u.id == uid)

/-- `Book.query.get book_id`. -/
def getBook (s : Store) (bid : Nat) : Option Book :=
  s.books.find? (fun b => b.id == bid)

/-- Mutating the row with primary key `bid` in the books table. -/
def setBook (s : Store) (bid : Nat) (f : Book → Book) : Store :=
  ⟨s.users, s.books.map (fun b => if b.id == bid then f b else b)⟩

/-- Flash message added by flask-login's `unauthorized()` when an anonymous
caller hits a `login_required` route and a login view is configured. -/
def msgLoginRequired : String := "Please log in to access this page."

/-- Flash message of line 62 (password and confirmation differ). -/
def msgPasswordMismatch : String := "密碼和確認密碼不一致"

/-- Flash message of line 74 (registration succeeded). -/
def msgRegisterOk : String := "註冊成功！"

/-- Flash message of line 96 (unknown username or wrong password). -/
def msgLoginFail : String := "使用者名稱或密碼錯誤，請重試。"

/-- Flash message of line 108 (logged out). -/
def msgLogout : String := "您已成功登出。"

/-- Flash message of line 120 (borrow succeeded). -/
def msgBorrowOk : String := "書籍已成功借閱！"

/-- Flash message of line 122 (book already borrowed or missing). -/
def msgBorrowFail : String := "該書籍已被借閱或不存在。"

/-- Flash message of line 134 (return succeeded). -/
def msgReturnOk : String := "書籍已成功歸還！"

/-- Flash message of line 136 (return denied). -/
def msgReturnFail : String := "無法歸還書籍。"

/-- Flash message of lines 153 and 171 (non-admin forbidden). -/
def msgForbidden : String := "您沒有權限執行此操作！"

/-- Flash message of line 162 (book added). -/
def msgAddBookOk : String := "書籍已成功新增！"

/-- Flash message of line 177 (book deleted). -/
def msgDeleteBookOk : String := "書籍已成功刪除！"

/-- Flash message of line 179 (book not found). -/
def msgBookNotFound : String := "找不到該書籍。"

/-- Flash message of line 187 (non-admin forbidden on manage_users). -/
def msgForbiddenManage : String := "只有管理員可以訪問此頁面。"

/-- Flash message of line 200 (non-admin forbidden on delete_user). -/
def msgForbiddenDeleteUser : String := "只有管理員可以刪除使用者。"

/-- Flash message of line 208 (user deleted). -/
def msgUserDeleted : String := "使用者已刪除。"

/-- Flash message of line 210 (user not found). -/
def msgUserNotFound : String := "找不到該使用者。"

/-- POST body of the `/register` form; `admin` records whether the form
contains an `admin` key (line 66: `is_admin = admin in request.form`). -/
structure RegisterForm where
  username : String
  password : String
  confirm_password : String
  admin : Bool
deriving Repr, DecidableEq

/-- POST body of the `/login` form. -/
structure LoginForm where
  username : String
  password : String
deriving Repr, DecidableEq

/-- POST body of the `/add_book` form. -/
structure AddBookForm where
  title : String
  author : String
  publish_date : String
deriving Repr, DecidableEq

/-- Handler of `POST /register` (lines 53-77).  Not login-protected.  If the
two passwords differ it flashes and redirects; otherwise it inserts a user
whose `is_admin` is the caller-supplied flag and commits — the commit raises
`IntegrityError` (an unhandled raw fault) when the UNIQUE constraint on
`username` is violated, leaving the table unchanged. -/
def register (form : RegisterForm) (sess : Option Nat) (fl : List String)
    (s : Store) : Except DBError ReqResult :=
  if form.password ≠ form.confirm_password then
    .ok ⟨s, fl ++ [msgPasswordMismatch], sess, .redirectTo "register"⟩
  else
    let new_user : User :=
      ⟨nextUserId s, form.username, generate_password_hash form.password, form.admin⟩
    if s.users.any (fun u => u.username == form.username) then
      .error .integrityError
    else
      .ok ⟨⟨s.users ++ [new_user], s.books⟩, fl ++ [msgRegisterOk], sess,
           .redirectTo "login"⟩

/-- Handler of `POST /login` (lines 80-99). -/
def login (form : LoginForm) (sess : Option Nat) (fl : List String)
    (s : Store) : ReqResult :=
  match s.users.find? (fun u => u.username == form.username) with
  | some u =>
    if check_password_hash u.password_hash form.password then
      ⟨s, fl, some u.id, .redirectTo "index"⟩
    else
      ⟨s, fl ++ [msgLoginFail], sess, .redirectTo "login"⟩
  | none => ⟨s, fl ++ [msgLoginFail], sess, .redirectTo "login"⟩

/-- Handler of `GET /logout` (lines 102-109): login-protected; logs out,
clears all pending flashes, then flashes the logout notice. -/
def logout (sess : Option Nat) (fl : List String) (s : Store) : ReqResult :=
  match load_user s sess with
  | none => ⟨s, fl ++ [msgLoginRequired], sess, .redirectTo "login"⟩
  | some _ => ⟨s, [msgLogout], none, .redirectTo "login"⟩

/-- Handler of `GET /borrow/<book_id>` (lines 112-123): login-protected; if
the book exists and is not borrowed, marks it borrowed by the current user;
otherwise flashes the failure message. -/
def borrow_book (bid : Nat) (sess : Option Nat) (fl : List String)
    (s : Store) : ReqResult :=
  match load_user s sess with
  | none => ⟨s, fl ++ [msgLoginRequired], sess, .redirectTo "login"⟩
  | some cu =>
    match getBook s bid with
    | some book =>
      if book.is_borrowed then
        ⟨s, fl ++ [msgBorrowFail], sess, .redirectTo "index"⟩
      else
        ⟨setBook s bid (fun b => { b with is_borrowed := true, borrowed_by := some cu.id }),
         fl ++ [msgBorrowOk], sess, .redirectTo "index"⟩
    | none => ⟨s, fl ++ [msgBorrowFail], sess, .redirectTo "index"⟩

/-- Handler of `POST /return/<book_id>` (lines 126-137): login-protected;
succeeds exactly when the book exists and `borrowed_by` equals the current
user id (the `is_borrowed` flag is not consulted). -/
def return_book (bid : Nat) (sess : Option Nat) (fl : List String)
    (s : Store) : ReqResult :=
  match load_user s sess with
  | none => ⟨s, fl ++ [msgLoginRequired], sess, .redirectTo "login"⟩
  | some cu =>
    match getBook s bid with
    | some book =>
      if book.borrowed_by == some cu.id then
        ⟨setBook s bid (fun b => { b with is_borrowed := false, borrowed_by := none }),
         fl ++ [msgReturnOk], sess, .redirectTo "user_page"⟩
      else
        ⟨s, fl ++ [msgReturnFail], sess, .redirectTo "user_page"⟩
    | none => ⟨s, fl ++ [msgReturnFail], sess, .redirectTo "user_page"⟩

/-- Handler of `/add_book` (lines 149-164): login-protected; non-admins are
turned away before the method dispatch; a POST inserts a new book row, which
SQLAlchemy creates with the column defaults `is_borrowed = false` and
`borrowed_by = null`. -/
def add_book (m : Method) (form : AddBookForm) (sess : Option Nat)
    (fl : List String) (s : Store) : ReqResult :=
  match load_user s sess with
  | none => ⟨s, fl ++ [msgLoginRequired], sess, .redirectTo "login"⟩
  | some cu =>
    if !cu.is_admin then
      ⟨s, fl ++ [msgForbidden], sess, .redirectTo "index"⟩
    else
      match m with
      | .post =>
        let new_book : Book :=
          ⟨nextBookId s, form.title, form.author, some form.publish_date, false, none⟩
        ⟨⟨s.users, s.books ++ [new_book]⟩, fl ++ [msgAddBookOk], sess,
         .redirectTo "index"⟩
      | .get => ⟨s, fl, sess, .render "add_book.html"⟩

/-- Handler of `POST /delete_book/<book_id>` (lines 167-180): login-protected,
admin-only; deletes the row if present (whether or not it is borrowed). -/
def delete_book (bid : Nat) (sess : Option Nat) (fl : List String)
    (s : Store) : ReqResult :=
  match load_user s sess with
  | none => ⟨s, fl ++ [msgLoginRequired], sess, .redirectTo "login"⟩
  | some cu =>
    if !cu.is_admin then
      ⟨s, fl ++ [msgForbidden], sess, .redirectTo "index"⟩
    else
      match getBook s bid with
      | some _ =>
        ⟨⟨s.users, s.books.filter (fun b => b.id != bid)⟩,
         fl ++ [msgDeleteBookOk], sess, .redirectTo "index"⟩
      | none => ⟨s, fl ++ [msgBookNotFound], sess, .redirectTo "index"⟩

/-- Handler of `GET /manage_users` (lines 182-192): login-protected,
admin-only; renders the user list, mutating nothing. -/
def manage_users (sess : Option Nat) (fl : List String) (s : Store) : ReqResult :=
  match load_user s sess with
  | none => ⟨s, fl ++ [msgLoginRequired], sess, .redirectTo "login"⟩
  | some cu =>
    if !cu.is_admin then
      ⟨s, fl ++ [msgForbiddenManage], sess, .redirectTo "index"⟩
    else
      ⟨s, fl, sess, .render "manage_users.html"⟩

/-- Effect on the books table of flushing `db.session.delete(user)`: the
`borrowed_books` backref of the relationship on line 35 (default cascade,
no `passive_deletes`) de-associates every book the user holds, setting its
`borrowed_by` to null; the `is_borrowed` flag is left as it was. -/
def clearLoans (books : List Book) (uid : Nat) : List Book :=
  books.map (fun b =>
    if b.borrowed_by == some uid then { b with borrowed_by := none } else b)

/-- Handler of `POST /delete_user/<user_id>` (lines 195-212): login-protected,
admin-only; if the target exists, `db.session.delete` de-associates the
target's borrowed books (nullifying their `borrowed_by`, see `clearLoans`)
and removes the user row. -/
def delete_user (uid : Nat) (sess : Option Nat) (fl : List String)
    (s : Store) : ReqResult :=
  match load_user s sess with
  | none => ⟨s, fl ++ [msgLoginRequired], sess, .redirectTo "login"⟩
  | some cu =>
    if !cu.is_admin then
      ⟨s, fl ++ [msgForbiddenDeleteUser], sess, .redirectTo "index"⟩
    else
      match s.users.find? (fun u => u.id == uid) with
      | some _ =>
        ⟨⟨s.users.filter (fun u => u.id != uid), clearLoans s.books uid⟩,
         fl ++ [msgUserDeleted], sess, .redirectTo "manage_users"⟩
      | none => ⟨s, fl ++ [msgUserNotFound], sess, .redirectTo "manage_users"⟩

/-!
Reachability.  One `Step` is one handled HTTP request, with arbitrary
request data, session and pending flashes, projected to its effect on the
store.  Quantifying over arbitrary session values over-approximates real
executions only in that it does not track who knows which password; since
registration lets a caller pick any password, every session value `some uid`
with `uid` the id of an existing user is realizable through `login`, and
session values naming no existing user make the handler a no-op (the
`login_required` redirect).  A faulted `register` (IntegrityError) rolls the
transaction back and leaves the store unchanged, so it induces no step.
-/

/-- One handled request, projected to its effect on the store. -/
inductive Step : Store → Store → Prop
  | reg (form : RegisterForm) (sess : Option Nat) (fl : List String) (s : Store)
      (r : ReqResult) (h : register form sess fl s = .ok r) : Step s r.store
  | login_req (form : LoginForm) (sess : Option Nat) (fl : List String) (s : Store) :
      Step s (login form sess fl s).store
  | logout_req (sess : Option Nat) (fl : List String) (s : Store) :
      Step s (logout sess fl s).store
  | borrow_req (bid : Nat) (sess : Option Nat) (fl : List String) (s : Store) :
      Step s (borrow_book bid sess fl s).store
  | return_req (bid : Nat) (sess : Option Nat) (fl : List String) (s : Store) :
      Step s (return_book bid sess fl s).store
  | add_book_req (m : Method) (form : AddBookForm) (sess : Option Nat)
      (fl : List String) (s : Store) : Step s (add_book m form sess fl s).store
  | delete_book_req (bid : Nat) (sess : Option Nat) (fl : List String) (s : Store) :
      Step s (delete_book bid sess fl s).store
  | manage_users_req (sess : Option Nat) (fl : List String) (s : Store) :
      Step s (manage_users sess fl s).store
  | delete_user_req (uid : Nat) (sess : Option Nat) (fl : List String) (s : Store) :
      Step s (delete_user uid sess fl s).store

/-- Stores reachable from the empty database by any request sequence. -/
inductive Reachable : Store → Prop
  | init : Reachable initStore
  | step {s s' : Store} : Reachable s → Step s s' → Reachable s'

/-- The borrow-state pairing that actually holds at every reachable store:
a book that is not flagged borrowed has a null `borrowed_by`, and a non-null
`borrowed_by` always names a currently existing user (deleting a user
nullifies the references to them first).  The claimed iff fails in the other
direction: a book can be flagged borrowed with `borrowed_by` null, namely
after its holder is deleted — see the counterexample for claim C1. -/
def StoreInv (s : Store) : Prop :=
  ∀ b ∈ s.books,
    (b.is_borrowed = false → b.borrowed_by = none) ∧
    (∀ uid, b.borrowed_by = some uid → ∃ u ∈ s.users, u.id = uid)

/-!
Concrete stores used below.  Example trace: admin `bob` registers, non-admin
`alice` registers, `bob` adds the book Dune, `alice` borrows it, then `bob`
deletes `alice`.  The final store has a book still flagged borrowed whose
`borrowed_by` was nullified by the delete-time de-association, so no
currently existing user holds it.
-/

/-- Admin user created by the first registration of the example trace. -/
def bob : User := ⟨1, "bob", generate_password_hash "hunter2", true⟩

/-- Non-admin user created by the second registration of the example trace. -/
def alice : User := ⟨2, "alice", generate_password_hash "wonder", false⟩

/-- Store after the two registrations of the example trace. -/
def exS2 : Store := ⟨[bob, alice], []⟩

/-- The book Dune, not yet borrowed. -/
def duneAvail : Book := ⟨1, "Dune", "Herbert", some "1965", false, none⟩

/-- The book Dune while borrowed by `alice` (user id 2). -/
def duneByAlice : Book := ⟨1, "Dune", "Herbert", some "1965", true, some 2⟩

/-- Store after `bob` has added Dune. -/
def exS3 : Store := ⟨[bob, alice], [duneAvail]⟩

/-- Store after `alice` has borrowed Dune. -/
def exS4 : Store := ⟨[bob, alice], [duneByAlice]⟩

/-- The book Dune after its holder has been deleted: the flush de-associated
the loan, so `borrowed_by` is null while `is_borrowed` is still true. -/
def duneCleared : Book := ⟨1, "Dune", "Herbert", some "1965", true, none⟩

/-- Store after `bob` has deleted `alice`: Dune is still flagged borrowed,
but its `borrowed_by` was nullified by the de-association, so no currently
existing user holds it. -/
def exS5 : Store := ⟨[bob], [duneCleared]⟩

/-- Store holding a user named carol, to exhibit a duplicate registration. -/
def carolStore : Store := ⟨[⟨1, "carol", generate_password_hash "pw", false⟩], []⟩

/-- Registration form reusing the username carol with matching passwords. -/
def carolDupForm : RegisterForm := ⟨"carol", "secret", "secret", false⟩

/-- Store holding a user named dave, to exhibit the duplicate-username fault. -/
def daveStore : Store := ⟨[⟨1, "dave", generate_password_hash "pw", false⟩], []⟩

/-- Registration form reusing the username dave with matching passwords. -/
def daveDupForm : RegisterForm := ⟨"dave", "letmein", "letmein", false⟩

/-- An invariant-violating store (never reachable, used to probe the return
handler): the book says it is not borrowed, yet `borrowed_by` is set to 2. -/
def ghostStore : Store :=
  ⟨[alice], [⟨1, "Ghost", "Writer", none, false, some 2⟩]⟩

/-!
Fine-grained model of `borrow_book` for the race analysis of claim C7.  The
handler body is a read (`Book.query.get` on line 115 plus the availability
test on line 116) followed by a write-and-commit (lines 117-119), with no
conditional update and no row lock; `borrow_split_faithful` below proves the
two phases recompose the handler.  `borrow_interleaved` runs the two read
phases of two requests before either write phase, a schedule a multithreaded
server permits.
-/

/-- Read phase of the borrow handler: `book and not book.is_borrowed`. -/
def borrow_check (s : Store) (bid : Nat) : Bool :=
  match getBook s bid with
  | some b => !b.is_borrowed
  | none => false

/-- Write phase of the borrow handler (lines 117-119). -/
def borrow_write (s : Store) (bid uid : Nat) : Store :=
  setBook s bid (fun b => { b with is_borrowed := true, borrowed_by := some uid })

/-- Two borrow requests on the same book, by users `u1` and `u2`, scheduled
so both read phases precede both write phases.  The booleans are each
request's own check outcome, hence which flash branch it takes. -/
def borrow_interleaved (s : Store) (bid u1 u2 : Nat) : Store × Bool × Bool :=
  let ok1 := borrow_check s bid
  let ok2 := borrow_check s bid
  let s1 := if ok1 then borrow_write s bid u1 else s
  let s2 := if ok2 then borrow_write s1 bid u2 else s1
  (s2, ok1, ok2)

/-- Store with two non-admin users and one available book, the race setup. -/
def raceStore : Store :=
  ⟨[⟨1, "u1", generate_password_hash "a", false⟩,
    ⟨2, "u2", generate_password_hash "b", false⟩],
   [⟨1, "Dune", "Herbert", some "1965", false, none⟩]⟩

lemma storeInv_init : StoreInv initStore := by
  intro b hb
  simp [initStore] at hb

lemma load_user_mem {s : Store} {sess : Option Nat} {u : User}
    (h : load_user s sess = some u) : u ∈ s.users := by
  unfold load_user at h
  cases sess with
  | none => cases h
  | some uid => exact List.mem_of_find?_eq_some h

lemma register_ok (form : RegisterForm) (sess : Option Nat) (fl : List String)
    (s : Store) (r : ReqResult) (h : register form sess fl s = .ok r) :
    r.store.books = s.books ∧ ∀ u ∈ s.users, u ∈ r.store.users := by
  unfold register at h
  split at h
  · cases h
    exact ⟨rfl, fun u hu => hu⟩
  · split at h
    · cases h
    · cases h
      exact ⟨rfl, fun u hu => List.mem_append_left _ hu⟩

lemma login_store (form : LoginForm) (sess : Option Nat) (fl : List String)
    (s : Store) : (login form sess fl s).store = s := by
  unfold login
  split
  · split <;> rfl
  · rfl

lemma logout_store (sess : Option Nat) (fl : List String) (s : Store) :
    (logout sess fl s).store = s := by
  unfold logout
  split <;> rfl

lemma manage_users_store (sess : Option Nat) (fl : List String) (s : Store) :
    (manage_users sess fl s).store = s := by
  unfold manage_users
  split
  · rfl
  · split <;> rfl

lemma storeInv_borrow (bid : Nat) (sess : Option Nat) (fl : List String)
    (s : Store) (hs : StoreInv s) : StoreInv (borrow_book bid sess fl s).store := by
  unfold borrow_book
  split
  · exact hs
  · rename_i cu hlu
    split
    · split
      · exact hs
      · intro b hb
        unfold setBook at hb
        simp only [List.mem_map] at hb
        obtain ⟨a, ha, rfl⟩ := hb
        by_cases hid : (a.id == bid) = true
        · rw [if_pos hid]
          refine ⟨fun hcontra => ?_, fun uid huid => ?_⟩
          · simp at hcontra
          · have hcu : cu.id = uid := by simpa using huid
            exact ⟨cu, load_user_mem hlu, hcu⟩
        · rw [if_neg hid]
          exact hs a ha
    · exact hs

lemma storeInv_return (bid : Nat) (sess : Option Nat) (fl : List String)
    (s : Store) (hs : StoreInv s) : StoreInv (return_book bid sess fl s).store := by
  unfold return_book
  split
  · exact hs
  · split
    · split
      · intro b hb
        unfold setBook at hb
        simp only [List.mem_map] at hb
        obtain ⟨a, ha, rfl⟩ := hb
        by_cases hid : (a.id == bid) = true
        · rw [if_pos hid]
          exact ⟨fun _ => rfl, fun uid huid => by simp at huid⟩
        · rw [if_neg hid]
          exact hs a ha
      · exact hs
    · exact hs

lemma storeInv_add_book (m : Method) (form : AddBookForm) (sess : Option Nat)
    (fl : List String) (s : Store) (hs : StoreInv s) :
    StoreInv (add_book m form sess fl s).store := by
  unfold add_book
  split
  · exact hs
  · split
    · exact hs
    · split
      · intro b hb
        simp only [List.mem_append, List.mem_singleton] at hb
        rcases hb with hb | hb
        · exact hs b hb
        · subst hb
          exact ⟨fun _ => rfl, fun uid huid => by simp at huid⟩
      · exact hs

lemma storeInv_delete_book (bid : Nat) (sess : Option Nat) (fl : List String)
    (s : Store) (hs : StoreInv s) : StoreInv (delete_book bid sess fl s).store := by
  unfold delete_book
  split
  · exact hs
  · split
    · exact hs
    · split
      · intro b hb
        exact hs b (List.mem_of_mem_filter hb)
      · exact hs

lemma storeInv_delete_user (uid : Nat) (sess : Option Nat) (fl : List String)
    (s : Store) (hs : StoreInv s) : StoreInv (delete_user uid sess fl s).store := by
  unfold delete_user
  split
  · exact hs
  · split
    · exact hs
    · split
      · intro b hb
        unfold clearLoans at hb
        simp only [List.mem_map] at hb
        obtain ⟨a, ha, rfl⟩ := hb
        obtain ⟨h1, h2⟩ := hs a ha
        by_cases hcond : (a.borrowed_by == some uid) = true
        · rw [if_pos hcond]
          exact ⟨fun _ => rfl, fun v hv => by simp at hv⟩
        · rw [if_neg hcond]
          refine ⟨h1, fun v hv => ?_⟩
          obtain ⟨u, hu, hid⟩ := h2 v hv
          have hne : v ≠ uid := by
            intro hvu
            apply hcond
            rw [hv, hvu]
            simp
          refine ⟨u, List.mem_filter.mpr ⟨hu, ?_⟩, hid⟩
          simp only [bne_iff_ne]
          rw [hid]
          exact hne
      · exact hs

lemma storeInv_step {s s' : Store} (hstep : Step s s') (hs : StoreInv s) :
    StoreInv s' := by
  cases hstep with
  | reg form sess fl s r h =>
    obtain ⟨hbooks, husers⟩ := register_ok form sess fl s r h
    intro b hb
    rw [hbooks] at hb
    obtain ⟨h1, h2⟩ := hs b hb
    refine ⟨h1, fun uid huid => ?_⟩
    obtain ⟨u, hu, hid⟩ := h2 uid huid
    exact ⟨u, husers u hu, hid⟩
  | login_req form sess fl s => rw [login_store]; exact hs
  | logout_req sess fl s => rw [logout_store]; exact hs
  | borrow_req bid sess fl s => exact storeInv_borrow bid sess fl s hs
  | return_req bid sess fl s => exact storeInv_return bid sess fl s hs
  | add_book_req m form sess fl s => exact storeInv_add_book m form sess fl s hs
  | delete_book_req bid sess fl s => exact storeInv_delete_book bid sess fl s hs
  | manage_users_req sess fl s => rw [manage_users_store]; exact hs
  | delete_user_req uid sess fl s => exact storeInv_delete_user uid sess fl s hs

lemma reachable_storeInv {s : Store} (h : Reachable s) : StoreInv s := by
  induction h with
  | init => exact storeInv_init
  | step _ hstep ih => exact storeInv_step hstep ih

lemma reach_exS2 : Reachable exS2 := by
  have h1 : Reachable (⟨⟨[bob], []⟩, [msgRegisterOk], none, .redirectTo "login"⟩ : ReqResult).store :=
    Reachable.step Reachable.init
      (Step.reg ⟨"bob", "hunter2", "hunter2", true⟩ none [] initStore _ rfl)
  have h2 : Reachable (⟨exS2, [msgRegisterOk], none, .redirectTo "login"⟩ : ReqResult).store :=
    Reachable.step h1
      (Step.reg ⟨"alice", "wonder", "wonder", false⟩ none [] ⟨[bob], []⟩ _ rfl)
  exact h2

lemma reach_exS3 : Reachable exS3 := by
  have h := Reachable.step reach_exS2
    (Step.add_book_req .post ⟨"Dune", "Herbert", "1965"⟩ (some 1) [] exS2)
  have e : (add_book .post ⟨"Dune", "Herbert", "1965"⟩ (some 1) [] exS2).store = exS3 := by
    decide
  exact e ▸ h

lemma reach_exS4 : Reachable exS4 := by
  have h := Reachable.step reach_exS3 (Step.borrow_req 1 (some 2) [] exS3)
  have e : (borrow_book 1 (some 2) [] exS3).store = exS4 := by decide
  exact e ▸ h

lemma reach_exS5 : Reachable exS5 := by
  have h := Reachable.step reach_exS4 (Step.delete_user_req 2 (some 1) [] exS4)
  have e : (delete_user 2 (some 1) [] exS4).store = exS5 := by decide
  exact e ▸ h

lemma getBook_mem {s : Store} {bid : Nat} {b : Book} (h : getBook s bid = some b) :
    b ∈ s.books :=
  List.mem_of_find?_eq_some h

lemma borrow_split_faithful (bid : Nat) (sess : Option Nat) (fl : List String)
    (s : Store) (cu : User) (hu : load_user s sess = some cu) :
    borrow_book bid sess fl s =
      if borrow_check s bid then
        ⟨borrow_write s bid cu.id, fl ++ [msgBorrowOk], sess, .redirectTo "index"⟩
      else
        ⟨s, fl ++ [msgBorrowFail], sess, .redirectTo "index"⟩ := by
  unfold borrow_book borrow_check borrow_write
  rw [hu]
  cases h : getBook s bid with
  | none => simp
  | some b => cases hb : b.is_borrowed <;> simp [hb]

/-- C1: the claimed invariant — `is_borrowed = true` iff `borrowed_by` names
a currently existing user — fails at a reachable store.  Trace: admin bob
registers, alice registers, bob adds Dune, alice borrows it, bob deletes
alice.  Deleting alice de-associates her loans, so Dune ends with
`is_borrowed = true` while `borrowed_by` is null — the flag is set although
`borrowed_by` holds no existing user's id. -/
theorem C1_counterexample :
    Reachable exS5 ∧ duneCleared ∈ exS5.books ∧
      duneCleared.is_borrowed = true ∧ duneCleared.borrowed_by = none :=
  ⟨reach_exS5, by decide, rfl, rfl⟩

/-- C1 (amended): at every reachable store, every book satisfies the two
directions that do hold: `borrowed_by` is null whenever `is_borrowed` is
false, and a non-null `borrowed_by` implies both that the book is flagged
borrowed and that the stored id names a currently existing user.  The
remaining direction of the claimed iff — `is_borrowed = true` implies a
non-null (valid) `borrowed_by` — is false: deleting a book's holder
nullifies `borrowed_by` but leaves `is_borrowed` true. -/
theorem C1_borrow_pairing_invariant (s : Store) (h : Reachable s) :
    ∀ b ∈ s.books,
      (b.is_borrowed = false → b.borrowed_by = none) ∧
      (∀ uid, b.borrowed_by = some uid →
        b.is_borrowed = true ∧ ∃ u ∈ s.users, u.id = uid) := by
  intro b hb
  obtain ⟨h1, h2⟩ := reachable_storeInv h b hb
  refine ⟨h1, fun uid huid => ?_⟩
  cases hbv : b.is_borrowed with
  | false =>
    rw [h1 hbv] at huid
    exact absurd huid (by simp)
  | true => exact ⟨rfl, h2 uid huid⟩

/-- C1 witness: the amended invariant evaluated at the reachable store in
which alice holds Dune: the book is flagged borrowed and user 2 (alice)
exists. -/
theorem C1_borrow_pairing_invariant_witness :
    duneByAlice.is_borrowed = true ∧ ∃ u ∈ exS4.users, u.id = 2 :=
  (C1_borrow_pairing_invariant exS4 reach_exS4 duneByAlice (by decide)).2 2 rfl

/-- C10 counterexample: the claim that deletion leaves every book's fields
exactly as they were is false — when bob deletes alice while she holds Dune,
the flush de-associates the loan: the books table changes, Dune's
`borrowed_by` is cleared to null (a cascade-clear does occur) while its
`is_borrowed` flag stays true. -/
theorem C10_counterexample :
    delete_user 2 (some 1) [] exS4 =
      ⟨exS5, [msgUserDeleted], some 1, .redirectTo "manage_users"⟩ ∧
    duneByAlice ∈ exS4.books ∧ duneByAlice.borrowed_by = some 2 ∧
    (delete_user 2 (some 1) [] exS4).store.books ≠ exS4.books ∧
    duneCleared ∈ (delete_user 2 (some 1) [] exS4).store.books ∧
    duneCleared.is_borrowed = true ∧ duneCleared.borrowed_by = none := by
  exact ⟨by decide, by decide, rfl, by decide, by decide, rfl, rfl⟩

/-- C10 (amended): `delete_user`, run by an authenticated admin on an
existing target, succeeds (no HasActiveLoans failure) and de-associates the
target's loans: every book whose `borrowed_by` equals the target id is kept
with `borrowed_by` cleared to null — its other fields, `is_borrowed`
included, unchanged — and every book not referencing the target is kept
verbatim; the target's user row is removed. -/
theorem C10_delete_user_deassociates (s : Store) (fl : List String)
    (sess : Option Nat) (cu : User) (uid : Nat)
    (hu : load_user s sess = some cu) (hadmin : cu.is_admin = true)
    (hex : ∃ w, s.users.find? (fun x => x.id == uid) = some w) :
    delete_user uid sess fl s =
      ⟨⟨s.users.filter (fun x => x.id != uid), clearLoans s.books uid⟩,
       fl ++ [msgUserDeleted], sess, .redirectTo "manage_users"⟩ ∧
    (∀ b ∈ s.books, b.borrowed_by = some uid →
      ({ b with borrowed_by := none } : Book) ∈ (delete_user uid sess fl s).store.books) ∧
    (∀ b ∈ s.books, b.borrowed_by ≠ some uid →
      b ∈ (delete_user uid sess fl s).store.books) := by
  obtain ⟨w, hw⟩ := hex
  have heq : delete_user uid sess fl s =
      ⟨⟨s.users.filter (fun x => x.id != uid), clearLoans s.books uid⟩,
       fl ++ [msgUserDeleted], sess, .redirectTo "manage_users"⟩ := by
    unfold delete_user
    rw [hu]
    simp [hadmin, hw]
  refine ⟨heq, fun b hb hby => ?_, fun b hb hby => ?_⟩
  · rw [heq]
    show ({ b with borrowed_by := none } : Book) ∈ clearLoans s.books uid
    unfold clearLoans
    exact List.mem_map.mpr ⟨b, hb, by simp [hby]⟩
  · rw [heq]
    show b ∈ clearLoans s.books uid
    unfold clearLoans
    exact List.mem_map.mpr ⟨b, hb, by simp [hby]⟩

/-- C10 witness: bob deletes alice while she holds Dune — the call succeeds,
alice's row is removed, and Dune is kept with `borrowed_by` nullified. -/
theorem C10_delete_user_deassociates_witness :
    delete_user 2 (some 1) [] exS4 =
      ⟨⟨exS4.users.filter (fun x => x.id != 2), clearLoans exS4.books 2⟩,
       [msgUserDeleted], some 1, .redirectTo "manage_users"⟩ ∧
    duneCleared ∈ (delete_user 2 (some 1) [] exS4).store.books := by
  have h := C10_delete_user_deassociates exS4 [] (some 1) bob 2 rfl rfl ⟨alice, rfl⟩
  exact ⟨h.1, h.2.1 duneByAlice (by decide) rfl⟩

/-- C2: for an authenticated user `u`, if the requested book exists and is
not borrowed, `borrow_book` updates exactly that row to
`is_borrowed = true, borrowed_by = some u.id` (the users table and every
other book are untouched, since `setBook` rewrites only the row with the
given id), flashes the success notice and redirects to the index; if the
book is missing or already borrowed, the whole store is returned unchanged
with the already-borrowed-or-missing notice. -/
theorem C2_borrow_correct (s : Store) (fl : List String) (sess : Option Nat)
    (u : User) (bid : Nat) (hu : load_user s sess = some u) :
    ((∃ b, getBook s bid = some b ∧ b.is_borrowed = false) →
      borrow_book bid sess fl s =
        ⟨setBook s bid (fun b => { b with is_borrowed := true, borrowed_by := some u.id }),
         fl ++ [msgBorrowOk], sess, .redirectTo "index"⟩) ∧
    ((getBook s bid = none ∨ ∃ b, getBook s bid = some b ∧ b.is_borrowed = true) →
      borrow_book bid sess fl s =
        ⟨s, fl ++ [msgBorrowFail], sess, .redirectTo "index"⟩) ∧
    (∀ f : Book → Book, (setBook s bid f).users = s.users) := by
  unfold borrow_book
  rw [hu]
  refine ⟨?_, ?_, fun f => rfl⟩
  · rintro ⟨b, hb, hbb⟩
    simp [hb, hbb]
  · rintro (hb | ⟨b, hb, hbb⟩) <;> simp [hb]
    simp [hbb]

/-- C2 witness: alice borrows the available Dune (success case) and then a
borrow of the already-borrowed Dune is rejected without mutation. -/
theorem C2_borrow_correct_witness :
    borrow_book 1 (some 2) [] exS3 =
      ⟨setBook exS3 1 (fun b => { b with is_borrowed := true, borrowed_by := some 2 }),
       [msgBorrowOk], some 2, .redirectTo "index"⟩ ∧
    borrow_book 1 (some 2) [] exS4 =
      ⟨exS4, [msgBorrowFail], some 2, .redirectTo "index"⟩ := by
  refine ⟨(C2_borrow_correct exS3 [] (some 2) alice 1 rfl).1 ⟨duneAvail, rfl, rfl⟩, ?_⟩
  exact (C2_borrow_correct exS4 [] (some 2) alice 1 rfl).2.1 (Or.inr ⟨duneByAlice, rfl, rfl⟩)

/-- C3: over reachable stores and an authenticated user `u`, `return_book`
succeeds — clearing exactly the requested row to
`is_borrowed = false, borrowed_by = none` with the success notice — precisely
when the book exists, is flagged borrowed, and is held by `u`; when the book
is missing or `borrowed_by` differs from `u.id`, the store is returned
unchanged with the denial notice.  The final conjunct shows the two cases
are exhaustive on reachable stores (by the borrow-pairing invariant a book
held by `u` is necessarily flagged borrowed), so the operation succeeds
exactly when the caller is the current holder. -/
theorem C3_return_correct (s : Store) (hr : Reachable s) (fl : List String)
    (sess : Option Nat) (u : User) (bid : Nat) (hu : load_user s sess = some u) :
    ((∃ b, getBook s bid = some b ∧ b.is_borrowed = true ∧ b.borrowed_by = some u.id) →
      return_book bid sess fl s =
        ⟨setBook s bid (fun b => { b with is_borrowed := false, borrowed_by := none }),
         fl ++ [msgReturnOk], sess, .redirectTo "user_page"⟩) ∧
    ((getBook s bid = none ∨ ∃ b, getBook s bid = some b ∧ b.borrowed_by ≠ some u.id) →
      return_book bid sess fl s =
        ⟨s, fl ++ [msgReturnFail], sess, .redirectTo "user_page"⟩) ∧
    (getBook s bid = none ∨
      (∃ b, getBook s bid = some b ∧ b.is_borrowed = true ∧ b.borrowed_by = some u.id) ∨
      (∃ b, getBook s bid = some b ∧ b.borrowed_by ≠ some u.id)) := by
  refine ⟨?_, ?_, ?_⟩
  · rintro ⟨b, hb, _, hby⟩
    unfold return_book
    rw [hu]
    simp [hb, hby]
  · rintro (hb | ⟨b, hb, hby⟩) <;> (unfold return_book; rw [hu]; simp [hb])
    simp [beq_iff_eq, hby]
  · cases hgb : getBook s bid with
    | none => exact Or.inl rfl
    | some b =>
      by_cases hby : b.borrowed_by = some u.id
      · refine Or.inr (Or.inl ⟨b, rfl, ?_, hby⟩)
        obtain ⟨h1, _⟩ := reachable_storeInv hr b (getBook_mem hgb)
        cases hbv : b.is_borrowed with
        | true => rfl
        | false =>
          rw [h1 hbv] at hby
          exact absurd hby (by simp)
      · exact Or.inr (Or.inr ⟨b, rfl, hby⟩)

/-- C3 witness: at the reachable store where alice holds Dune, alice's return
succeeds and restores the available row, while bob's return of the same book
is denied without mutation. -/
theorem C3_return_correct_witness :
    return_book 1 (some 2) [] exS4 =
      ⟨setBook exS4 1 (fun b => { b with is_borrowed := false, borrowed_by := none }),
       [msgReturnOk], some 2, .redirectTo "user_page"⟩ ∧
    return_book 1 (some 1) [] exS4 =
      ⟨exS4, [msgReturnFail], some 1, .redirectTo "user_page"⟩ := by
  refine ⟨(C3_return_correct exS4 reach_exS4 [] (some 2) alice 1 rfl).1
      ⟨duneByAlice, rfl, rfl, rfl⟩, ?_⟩
  exact (C3_return_correct exS4 reach_exS4 [] (some 1) bob 1 rfl).2.1
    (Or.inr ⟨duneByAlice, rfl, by decide⟩)

/-- C9: the return handler consults only `borrowed_by`, never `is_borrowed`:
over an arbitrary store (reachable or not) and authenticated user `u`, the
operation succeeds — clearing the row and flashing the success notice —
exactly when the book exists and `borrowed_by = some u.id`, and is denied
without mutation otherwise.  In particular, at a pairing-violating store
with `is_borrowed = false` but `borrowed_by = some u.id`, it still succeeds
and clears `borrowed_by` (see the witness). -/
theorem C9_return_ignores_flag (s : Store) (fl : List String)
    (sess : Option Nat) (u : User) (bid : Nat) (hu : load_user s sess = some u) :
    ((∃ b, getBook s bid = some b ∧ b.borrowed_by = some u.id) →
      return_book bid sess fl s =
        ⟨setBook s bid (fun b => { b with is_borrowed := false, borrowed_by := none }),
         fl ++ [msgReturnOk], sess, .redirectTo "user_page"⟩) ∧
    ((getBook s bid = none ∨ ∃ b, getBook s bid = some b ∧ b.borrowed_by ≠ some u.id) →
      return_book bid sess fl s =
        ⟨s, fl ++ [msgReturnFail], sess, .redirectTo "user_page"⟩) := by
  constructor
  · rintro ⟨b, hb, hby⟩
    unfold return_book
    rw [hu]
    simp [hb, hby]
  · rintro (hb | ⟨b, hb, hby⟩) <;> (unfold return_book; rw [hu]; simp [hb])
    simp [beq_iff_eq, hby]

/-- C9 witness: at the invariant-violating store whose only book has
`is_borrowed = false` yet `borrowed_by = some 2`, alice's return still
succeeds and clears the reference. -/
theorem C9_return_ignores_flag_witness :
    return_book 1 (some 2) [] ghostStore =
      ⟨setBook ghostStore 1 (fun b => { b with is_borrowed := false, borrowed_by := none }),
       [msgReturnOk], some 2, .redirectTo "user_page"⟩ :=
  (C9_return_ignores_flag ghostStore [] (some 2) alice 1 rfl).1
    ⟨⟨1, "Ghost", "Writer", none, false, some 2⟩, rfl, rfl⟩

/-- C4: a non-admin authenticated user invoking any of the four admin-only
operations — add_book (either method), delete_book, manage_users,
delete_user — receives the forbidden notice and a redirect, and the store
(both tables) is returned unchanged. -/
theorem C4_admin_guard (s : Store) (fl : List String) (sess : Option Nat)
    (u : User) (hu : load_user s sess = some u) (hna : u.is_admin = false) :
    (∀ m form, add_book m form sess fl s =
      ⟨s, fl ++ [msgForbidden], sess, .redirectTo "index"⟩) ∧
    (∀ bid, delete_book bid sess fl s =
      ⟨s, fl ++ [msgForbidden], sess, .redirectTo "index"⟩) ∧
    manage_users sess fl s =
      ⟨s, fl ++ [msgForbiddenManage], sess, .redirectTo "index"⟩ ∧
    (∀ uid, delete_user uid sess fl s =
      ⟨s, fl ++ [msgForbiddenDeleteUser], sess, .redirectTo "index"⟩) := by
  refine ⟨fun m form => ?_, fun bid => ?_, ?_, fun uid => ?_⟩ <;>
    (first
      | (unfold add_book; rw [hu]; simp [hna])
      | (unfold delete_book; rw [hu]; simp [hna])
      | (unfold manage_users; rw [hu]; simp [hna])
      | (unfold delete_user; rw [hu]; simp [hna]))

/-- C4 witness: non-admin alice is turned away from all four admin-only
operations at the store where she holds Dune, with no mutation. -/
theorem C4_admin_guard_witness :
    add_book .post ⟨"Emma", "Austen", "1815"⟩ (some 2) [] exS4 =
      ⟨exS4, [msgForbidden], some 2, .redirectTo "index"⟩ ∧
    delete_book 1 (some 2) [] exS4 =
      ⟨exS4, [msgForbidden], some 2, .redirectTo "index"⟩ ∧
    manage_users (some 2) [] exS4 =
      ⟨exS4, [msgForbiddenManage], some 2, .redirectTo "index"⟩ ∧
    delete_user 1 (some 2) [] exS4 =
      ⟨exS4, [msgForbiddenDeleteUser], some 2, .redirectTo "index"⟩ := by
  have h := C4_admin_guard exS4 [] (some 2) alice rfl rfl
  exact ⟨h.1 .post ⟨"Emma", "Austen", "1815"⟩, h.2.1 1, h.2.2.1, h.2.2.2 1⟩

/-- C5 counterexample: a registration whose password and confirmation match
but whose username is already taken does not create a user — the commit
faults with the database integrity error instead, refuting the claim that
every matching-password request creates a user. -/
theorem C5_counterexample :
    carolDupForm.password = carolDupForm.confirm_password ∧
    register carolDupForm none [] carolStore = .error .integrityError ∧
    carolStore.users.length = 1 := by
  exact ⟨rfl, rfl, rfl⟩

/-- C5 (amended): a registration with mismatched passwords flashes the
mismatch notice and creates no user (the store is returned unchanged); a
matching-password registration with a fresh username creates exactly one
user whose `is_admin` equals the caller-supplied admin flag; a
matching-password registration with a taken username faults with the
integrity error (the transaction rolls back, so no user is created). -/
theorem C5_register_correct (s : Store) (fl : List String) (sess : Option Nat)
    (form : RegisterForm) :
    (form.password ≠ form.confirm_password →
      register form sess fl s =
        .ok ⟨s, fl ++ [msgPasswordMismatch], sess, .redirectTo "register"⟩) ∧
    (form.password = form.confirm_password →
      s.users.any (fun u => u.username == form.username) = false →
      register form sess fl s =
        .ok ⟨⟨s.users ++ [⟨nextUserId s, form.username,
                generate_password_hash form.password, form.admin⟩], s.books⟩,
             fl ++ [msgRegisterOk], sess, .redirectTo "login"⟩) ∧
    (form.password = form.confirm_password →
      s.users.any (fun u => u.username == form.username) = true →
      register form sess fl s = .error .integrityError) := by
  refine ⟨fun h => ?_, fun h1 h2 => ?_, fun h1 h2 => ?_⟩
  · simp [register, h]
  · simp [register, h1, h2]
  · simp [register, h1, h2]

/-- C5 witness: the three amended cases at concrete inputs — a mismatched
registration leaves the empty store empty, a fresh matching registration
creates carol with the requested admin flag, and a duplicate matching
registration faults. -/
theorem C5_register_correct_witness :
    register ⟨"eve", "pw1", "pw2", true⟩ none [] initStore =
      .ok ⟨initStore, [msgPasswordMismatch], none, .redirectTo "register"⟩ ∧
    register ⟨"carol", "pw", "pw", false⟩ none [] initStore =
      .ok ⟨⟨[⟨1, "carol", generate_password_hash "pw", false⟩], []⟩,
           [msgRegisterOk], none, .redirectTo "login"⟩ ∧
    register carolDupForm none [] carolStore = .error .integrityError := by
  refine ⟨(C5_register_correct initStore [] none ⟨"eve", "pw1", "pw2", true⟩).1 (by decide),
          ?_, (C5_register_correct carolStore [] none carolDupForm).2.2 rfl (by decide)⟩
  exact (C5_register_correct initStore [] none ⟨"carol", "pw", "pw", false⟩).2.1 rfl rfl

/-- C6: registering a username equal to that of an existing user does not
produce a flash-plus-redirect response at all — the handler commits without
catching the UNIQUE-constraint violation, so the request escapes as a raw
database integrity fault (an unhandled exception, HTTP 500), contradicting
the policy that every listed error is recovered as a notification plus
redirect.  No second user is created: the constraint aborts the insert
(the store before the request holds exactly one dave). -/
theorem C6_duplicate_username_uncaught :
    register daveDupForm none [] daveStore = .error .integrityError ∧
    daveStore.users.countP (fun u => u.username == "dave") = 1 :=
  ⟨rfl, by decide⟩

/-- C7: the borrow handler is a bare read-then-write with no conditional
update and no row lock (`borrow_split_faithful` proves the two phases
recompose `borrow_book`), so the schedule in which two requests for the same
available book both run their read phase before either write commits lets
BOTH checks pass — both requests take the success branch — and the book ends
borrowed by the second writer: a double borrow, contradicting the claim that
one of the two concurrent attempts must fail. -/
theorem C7_double_borrow_race :
    borrow_interleaved raceStore 1 1 2 =
      (⟨raceStore.users, [⟨1, "Dune", "Herbert", some "1965", true, some 2⟩]⟩,
       true, true) := by
  decide

/-- C8 counterexample: an anonymous caller of `/logout` is intercepted by
`login_required` and redirected to the login page — the handler body never
runs, so a pending notification message is NOT cleared, refuting the claim
for the Anonymous session state. -/
theorem C8_counterexample :
    load_user exS3 none = none ∧
    logout none ["stale notice"] exS3 =
      ⟨exS3, ["stale notice", msgLoginRequired], none, .redirectTo "login"⟩ ∧
    "stale notice" ∈ (logout none ["stale notice"] exS3).flashes :=
  ⟨rfl, rfl, by decide⟩

/-- C8 (amended): for an authenticated caller, logout transitions the session
to Anonymous, clears the pending notification messages (leaving only the
fresh logout notice), and mutates no user or book record; an anonymous
caller never reaches the handler body — `login_required` redirects to the
login page with the store and session unchanged and the login-required
notice appended to the pending messages, which are not cleared. -/
theorem C8_logout_correct (s : Store) (fl : List String) (sess : Option Nat) :
    (∀ u, load_user s sess = some u →
      logout sess fl s = ⟨s, [msgLogout], none, .redirectTo "login"⟩) ∧
    (load_user s sess = none →
      logout sess fl s =
        ⟨s, fl ++ [msgLoginRequired], sess, .redirectTo "login"⟩) := by
  constructor
  · intro u hu
    unfold logout
    rw [hu]
  · intro h
    unfold logout
    rw [h]

/-- C8 witness: logged-in alice logs out (two stale notices replaced by the
logout notice, session cleared, store untouched); an anonymous caller is
bounced to login, keeping the stale notice and gaining the login-required
one. -/
theorem C8_logout_correct_witness :
    logout (some 2) ["n1", "n2"] exS4 =
      ⟨exS4, [msgLogout], none, .redirectTo "login"⟩ ∧
    logout none ["n1"] exS4 =
      ⟨exS4, ["n1", msgLoginRequired], none, .redirectTo "login"⟩ :=
  ⟨(C8_logout_correct exS4 ["n1", "n2"] (some 2)).1 alice rfl,
   (C8_logout_correct exS4 ["n1"] none).2 rfl⟩

end LibApp
